import Mathlib

/-
Shallow embedding of the MatrixUser aggregate from src/src/matrix-user.js.

External collaborators (the telegram puppet client, the contact registry
app.getTelegramUser, the portal registry, the string-similarity metric)
are parameters of the embedded operations; the control flow, state
mutation and error paths of matrix-user.js itself are translated
faithfully.  Asynchronous suspension points do not reorder anything in
the file under scrutiny (each await is sequential), so the operations
are modelled as pure state transformers that also report their
persistence calls and remote calls.  Thrown JS values are modelled by
Except; the deferred setTimeout task of the contactIDs setter is
modelled explicitly as a pending state transformer.
-/

/-- JS truthiness of a possibly-undefined string (undefined and "" are falsy). -/
def jsTruthyStr : Option String → Bool
  | none => false
  | some s => !s.isEmpty

/-- JS truthiness of a possibly-undefined numeric id (undefined and 0 are falsy). -/
def jsTruthyNat : Option Nat → Bool
  | none => false
  | some n => n != 0

/-- A thrown JS value: either an Error instance (carrying `.message`) or a plain
object, which may or may not expose a `toPrintable()` capability besides
`toString()`. -/
structure JSThrown where
  isError : Bool
  message : String
  toPrintable : Option String
  toString : String
deriving DecidableEq, Repr

/-- `new Error(message)` -/
def newError (message : String) : JSThrown :=
  { isError := true, message := message, toPrintable := none,
    toString := "Error: " ++ message }

/-- MatrixUser.parseTelegramError: the value it throws, given the caught value
`err`.  If `err` is an Error instance it is rethrown unchanged; otherwise a new
Error wrapping the printable rendering is thrown. -/
def parseTelegramError (err : JSThrown) : JSThrown :=
  let message :=
    match err.toPrintable with
    | some p => p
    | none => err.toString
  if err.isError then err else newError message

/-- Serialized puppet snapshot (opaque payload produced by toSubentry). -/
structure PuppetData where
  raw : String
deriving DecidableEq, Repr

/-- The telegram puppet: the remote-session object owned by a MatrixUser.
`userID` is set exactly when the session is authenticated; `subentry` is what
`toSubentry()` would serialize. -/
structure TelegramPuppet where
  userID : Option Nat
  subentry : PuppetData
deriving DecidableEq, Repr

/-- A cached telegram contact (the objects returned by app.getTelegramUser). -/
structure Contact where
  id : Nat
  firstName : Option String
  lastName : Option String
  username : Option String
  phoneNumber : Option String
deriving DecidableEq, Repr

/-- The MatrixUser state: fields set by the constructor of matrix-user.js. -/
structure MatrixUser where
  userID : String
  whitelisted : Bool
  phoneNumber : Option String
  phoneCodeHash : Option String
  commandStatus : Option String
  puppetData : Option PuppetData
  contacts : List Contact
  _telegramPuppet : Option TelegramPuppet
deriving DecidableEq, Repr

/-- `new MatrixUser(app, userID)` (app contributes only the whitelist check). -/
def newMatrixUser (checkWhitelist : String → Bool) (userID : String) : MatrixUser :=
  { userID := userID
    whitelisted := checkWhitelist userID
    phoneNumber := none
    phoneCodeHash := none
    commandStatus := none
    puppetData := none
    contacts := []
    _telegramPuppet := none }

/-- The `telegramPuppet` getter: lazily constructs the puppet from the stored
snapshot (`fromSubentry` stands for TelegramPuppet.fromSubentry) on first
access and caches it; returns the puppet together with the possibly-updated
user state. -/
def telegramPuppet (fromSubentry : Option PuppetData → TelegramPuppet) (u : MatrixUser) :
    TelegramPuppet × MatrixUser :=
  match u._telegramPuppet with
  | some p => (p, u)
  | none =>
    let p := fromSubentry u.puppetData
    (p, { u with _telegramPuppet := some p })

/-- The `contactIDs` getter. -/
def contactIDs (u : MatrixUser) : List Nat := u.contacts.map Contact.id

/-- Result of the `contactIDs` setter: the state as seen immediately after the
setter returns, plus the task the setter scheduled via `setTimeout(..., 0)`. -/
structure SetterOut where
  user : MatrixUser
  pendingTask : Option (MatrixUser → MatrixUser)

/-- The `contactIDs` setter: it mutates nothing synchronously; it schedules a
detached task which, when it eventually runs, resolves the id list through
`getTelegramUser` and overwrites `contacts` (if the list is truthy). -/
def setContactIDs (getTelegramUser : Nat → Contact) (list : Option (List Nat))
    (u : MatrixUser) : SetterOut :=
  { user := u
    pendingTask := some fun u' =>
      match list with
      | some l => { u' with contacts := l.map getTelegramUser }
      | none => u' }

/-- The persisted-entry payload `{ phoneNumber, phoneCodeHash, contactIDs, puppet }`. -/
structure EntryData where
  phoneNumber : Option String
  phoneCodeHash : Option String
  contactIDs : Option (List Nat)
  puppet : Option PuppetData
deriving DecidableEq, Repr

/-- A persisted entry `{ type, id, data }`. -/
structure Entry where
  type : String
  id : String
  data : EntryData
deriving DecidableEq, Repr

/-- Result of MatrixUser.fromEntry: the rehydrated user plus the pending task
scheduled by the contactIDs setter invoked during rehydration. -/
structure FromEntryOut where
  user : MatrixUser
  pendingTask : Option (MatrixUser → MatrixUser)

/-- MatrixUser.fromEntry: rejects entries whose type is not "matrix"; otherwise
constructs a fresh user with the entry id, copies the handshake scalars,
assigns contactIDs through the setter, and if a puppet snapshot is present
stores it and touches the telegramPuppet getter (creating the puppet). -/
def fromEntry (checkWhitelist : String → Bool) (getTelegramUser : Nat → Contact)
    (fromSubentry : Option PuppetData → TelegramPuppet) (entry : Entry) :
    Except JSThrown FromEntryOut :=
  if entry.type ≠ "matrix" then
    Except.error (newError "MatrixUser can only be created from entry type \"matrix\"")
  else
    let user := newMatrixUser checkWhitelist entry.id
    let user := { user with phoneNumber := entry.data.phoneNumber,
                            phoneCodeHash := entry.data.phoneCodeHash }
    let s := setContactIDs getTelegramUser entry.data.contactIDs user
    let user :=
      match entry.data.puppet with
      | some pd => (telegramPuppet fromSubentry { s.user with puppetData := some pd }).2
      | none => s.user
    Except.ok { user := user, pendingTask := s.pendingTask }

/-- MatrixUser.toEntry: refreshes `puppetData` from the live puppet when one
exists, then serializes; returns the entry and the (possibly mutated) user. -/
def toEntry (u : MatrixUser) : Entry × MatrixUser :=
  let u' :=
    match u._telegramPuppet with
    | some p => { u with puppetData := some p.subentry }
    | none => u
  ({ type := "matrix"
     id := u'.userID
     data := { phoneNumber := u'.phoneNumber
               phoneCodeHash := u'.phoneCodeHash
               contactIDs := some (contactIDs u')
               puppet := u'.puppetData } }, u')

/-- A raw remote contact as returned by `contacts.getContacts` (profile payload
left abstract: it is consumed only by the external updateInfo). -/
structure RemoteUser where
  id : Nat
  payload : String
deriving DecidableEq, Repr

/-- Response of the remote `contacts.getContacts` call: either the hash-match
marker `contacts.contactsNotModified` or the fresh contact list. -/
inductive ContactsResult where
  | contactsNotModified
  | modified (users : List RemoteUser)
deriving DecidableEq, Repr

/-- Result of syncContacts: the returned boolean, the resulting user state and
whether `save()` was called. -/
structure SyncContactsOut where
  result : Bool
  user : MatrixUser
  saved : Bool

/-- MatrixUser.syncContacts.  `resolve` stands for the composition of
`app.getTelegramUser(contact.id)` with `updateInfo(puppet, contact, true)`
(forced full overwrite), i.e. the local Contact obtained for one remote
contact.  On `contactsNotModified` it returns false and touches nothing;
otherwise it replaces the whole contact cache with the resolved remote list
(in response order), saves and returns true. -/
def syncContacts (fromSubentry : Option PuppetData → TelegramPuppet)
    (resolve : RemoteUser → Contact) (response : ContactsResult) (u : MatrixUser) :
    SyncContactsOut :=
  let u₁ := (telegramPuppet fromSubentry u).2
  match response with
  | ContactsResult.contactsNotModified => { result := false, user := u₁, saved := false }
  | ContactsResult.modified users =>
    { result := true, user := { u₁ with contacts := users.map resolve }, saved := true }

/-- `new TelegramPeer(dialog._, dialog.id)`. -/
structure TelegramPeer where
  type : String
  id : Nat
deriving DecidableEq, Repr

/-- One entry of `dialogs.chats`: the `_` discriminator tag, the id and the
deactivated flag. -/
structure Dialog where
  tag : String
  id : Nat
  deactivated : Bool
deriving DecidableEq, Repr

/-- The skip condition of the syncDialogs loop:
`dialog._ === "chatForbidden" || dialog.deactivated`. -/
def isSkipped (d : Dialog) : Bool := (d.tag == "chatForbidden") || d.deactivated

/-- Observable outcome of syncDialogs: the returned changed flag, the peers for
which a portal was looked up and updated, the peers for which room creation
was attempted, and the errors logged by the per-conversation catch block. -/
structure SyncDialogsOut where
  changed : Bool
  peersProcessed : List TelegramPeer
  roomsAttempted : List TelegramPeer
  errorsLogged : List String
deriving DecidableEq, Repr

/-- The `for (const dialog of dialogs.chats)` loop of syncDialogs, carrying the
accumulated `changed` flag.  `updateInfo` stands for
`portal.updateInfo(puppet, dialog)` and `createMatrixRoom` for
`portal.createMatrixRoom(puppet, { invite: [userID] })`; a room-creation
failure is caught, logged and swallowed. -/
def syncDialogsLoop (updateInfo : Dialog → Bool) (createMatrixRoom : Dialog → Except String Unit)
    (createRooms : Bool) : List Dialog → Bool → SyncDialogsOut
  | [], changed =>
    { changed := changed, peersProcessed := [], roomsAttempted := [], errorsLogged := [] }
  | d :: rest, changed =>
    if isSkipped d then
      syncDialogsLoop updateInfo createMatrixRoom createRooms rest changed
    else
      let peer : TelegramPeer := { type := d.tag, id := d.id }
      let changed' := changed || updateInfo d
      let rooms := if createRooms then [peer] else []
      let errs :=
        if createRooms then
          match createMatrixRoom d with
          | Except.ok _ => []
          | Except.error e => [e]
        else []
      let out := syncDialogsLoop updateInfo createMatrixRoom createRooms rest changed'
      { changed := out.changed
        peersProcessed := peer :: out.peersProcessed
        roomsAttempted := rooms ++ out.roomsAttempted
        errorsLogged := errs ++ out.errorsLogged }

/-- MatrixUser.syncDialogs on a fetched dialog list. -/
def syncDialogs (updateInfo : Dialog → Bool) (createMatrixRoom : Dialog → Except String Unit)
    (createRooms : Bool) (dialogs : List Dialog) : SyncDialogsOut :=
  syncDialogsLoop updateInfo createMatrixRoom createRooms dialogs false

/-- JS `Math.round` on the rationals (half rounds towards positive infinity). -/
def jsRound (q : ℚ) : ℤ := ⌊q + 1/2⌋

/-- A quantity rounded to the nearest tenth. -/
def roundToTenth (q : ℚ) : ℚ := (jsRound (q * 10) : ℚ) / 10

/-- One entry pushed by searchContacts: `{ similarity, match, contact }`
(the `match` field is named `matchPercent` because `match` is reserved). -/
structure SearchResult where
  similarity : ℚ
  matchPercent : ℚ
  contact : Contact
deriving DecidableEq, Repr

/-- The comparator `(a, b) => b.similarity - a.similarity` as an order relation:
a precedes b when its similarity is at least b's. -/
def simGE (a b : SearchResult) : Prop := b.similarity ≤ a.similarity

instance : DecidableRel simGE :=
  fun a b => inferInstanceAs (Decidable (b.similarity ≤ a.similarity))

instance : IsTotal SearchResult simGE :=
  ⟨fun a b => le_total b.similarity a.similarity⟩

instance : IsTrans SearchResult simGE :=
  ⟨fun _ _ _ h₁ h₂ => le_trans h₂ h₁⟩

/-- The per-contact similarity of searchContacts: the maximum of the
display-name, username and phone-number scores, each computed only when the
corresponding field is truthy (`sim` stands for the external
strSim.compareTwoStrings, `getName` for contact.getFirstAndLastName()). -/
def contactSimilarity (sim : String → String → ℚ) (getName : Contact → String)
    (query : String) (c : Contact) : ℚ :=
  let displaynameSimilarity :=
    if jsTruthyStr c.firstName || jsTruthyStr c.lastName then sim query (getName c) else 0
  let usernameSimilarity :=
    if jsTruthyStr c.username then sim query (c.username.getD "") else 0
  let numberSimilarity :=
    if jsTruthyStr c.phoneNumber then sim query (c.phoneNumber.getD "") else 0
  max displaynameSimilarity (max usernameSimilarity numberSimilarity)

/-- The `results` array searchContacts accumulates before sorting: the contacts
whose similarity reaches `minSimilarity`, each carrying
`match = Math.round(similarity * 1000) / 10`. -/
def searchResults (sim : String → String → ℚ) (getName : Contact → String) (query : String)
    (minSimilarity : ℚ) (contacts : List Contact) : List SearchResult :=
  contacts.filterMap fun contact =>
    let similarity := contactSimilarity sim getName query contact
    if minSimilarity ≤ similarity then
      some { similarity := similarity
             matchPercent := (jsRound (similarity * 1000) : ℚ) / 10
             contact := contact }
    else none

/-- MatrixUser.searchContacts: the accumulated results, sorted by similarity
descending and truncated to `maxResults`. -/
def searchContacts (sim : String → String → ℚ) (getName : Contact → String) (query : String)
    (maxResults : Nat) (minSimilarity : ℚ) (contacts : List Contact) : List SearchResult :=
  ((searchResults sim getName query minSimilarity contacts).insertionSort simGE).take maxResults

/-- `{ phone_code_hash }` as returned by the remote sendCode. -/
structure SentCode where
  phone_code_hash : String
deriving DecidableEq, Repr

/-- The remote calls sendTelegramCode can issue. -/
inductive RemoteCall where
  | checkPhone (phoneNumber : String)
  | sendCode (phoneNumber : String)
deriving DecidableEq, Repr

/-- Result of sendTelegramCode: returned value or thrown error, the resulting
user state, the remote calls issued, and whether `save()` was called. -/
structure SendCodeOut where
  result : Except JSThrown SentCode
  user : MatrixUser
  calls : List RemoteCall
  saved : Bool
deriving Repr

/-- The guard `this._telegramPuppet && this._telegramPuppet.userID`: a live
puppet reporting an authenticated identity. -/
def isLoggedIn (u : MatrixUser) : Bool :=
  match u._telegramPuppet with
  | some p => jsTruthyNat p.userID
  | none => false

/-- MatrixUser.sendTelegramCode: throws when already logged in (before any
remote call); otherwise classifies `checkPhone`, then delegates to the remote
`sendCode`, storing the phone number and handshake hash and saving on
success, and rethrowing through parseTelegramError on failure. -/
def sendTelegramCode (fromSubentry : Option PuppetData → TelegramPuppet)
    (checkPhone : String → String) (sendCode : String → Except JSThrown SentCode)
    (phoneNumber : String) (u : MatrixUser) : SendCodeOut :=
  if isLoggedIn u then
    { result := Except.error
        (newError "You are already logged in. Please log out before logging in again.")
      user := u, calls := [], saved := false }
  else
    let u₁ := (telegramPuppet fromSubentry u).2
    if checkPhone phoneNumber == "unregistered" then
      { result := Except.error
          (newError "That number has not been registered. Please register it first.")
        user := u₁, calls := [RemoteCall.checkPhone phoneNumber], saved := false }
    else if checkPhone phoneNumber == "invalid" then
      { result := Except.error (newError "Invalid phone number.")
        user := u₁, calls := [RemoteCall.checkPhone phoneNumber], saved := false }
    else
      match sendCode phoneNumber with
      | Except.ok result =>
        { result := Except.ok result
          user := { u₁ with phoneNumber := some phoneNumber,
                            phoneCodeHash := some result.phone_code_hash }
          calls := [RemoteCall.checkPhone phoneNumber, RemoteCall.sendCode phoneNumber]
          saved := true }
      | Except.error err =>
        { result := Except.error (parseTelegramError err)
          user := u₁
          calls := [RemoteCall.checkPhone phoneNumber, RemoteCall.sendCode phoneNumber]
          saved := false }

/-- Result of logOutFromTelegram. -/
structure LogOutOut where
  result : Bool
  user : MatrixUser
  remoteLogOutCalled : Bool
  saved : Bool

/-- MatrixUser.logOutFromTelegram: touches the telegramPuppet getter (creating
a puppet if absent), issues the remote logOut, discards the cached puppet and
its snapshot, and saves. -/
def logOutFromTelegram (fromSubentry : Option PuppetData → TelegramPuppet)
    (u : MatrixUser) : LogOutOut :=
  let u₁ := (telegramPuppet fromSubentry u).2
  { result := true
    user := { u₁ with _telegramPuppet := none, puppetData := none }
    remoteLogOutCalled := true
    saved := true }

/-- Result of signInToTelegram (the remote signIn result type is abstract). -/
structure SignInOut (α : Type) where
  result : Except JSThrown α
  user : MatrixUser
  saved : Bool

/-- MatrixUser.signInToTelegram: requires the handshake fields to be truthy;
delegates to the remote signIn.  Only when that call returns normally does it
clear the handshake hash and save; a thrown error propagates immediately,
leaving the state untouched. -/
def signInToTelegram {α : Type} (signIn : String → String → String → Except JSThrown α)
    (phoneCode : String) (u : MatrixUser) : SignInOut α :=
  if !jsTruthyStr u.phoneNumber then
    { result := Except.error (newError "Phone number not set"), user := u, saved := false }
  else if !jsTruthyStr u.phoneCodeHash then
    { result := Except.error (newError "Phone code not sent"), user := u, saved := false }
  else
    match signIn (u.phoneNumber.getD "") (u.phoneCodeHash.getD "") phoneCode with
    | Except.ok result =>
      { result := Except.ok result, user := { u with phoneCodeHash := none }, saved := true }
    | Except.error err =>
      { result := Except.error err, user := u, saved := false }

/-- A trivial puppet factory for concrete instantiations. -/
def fsBlank : Option PuppetData → TelegramPuppet :=
  fun _ => { userID := none, subentry := { raw := "" } }

/-- A trivial contact registry for concrete instantiations. -/
def getUserBlank : Nat → Contact :=
  fun n => { id := n, firstName := none, lastName := none, username := none, phoneNumber := none }

/-- A whitelist accepting everyone, for concrete instantiations. -/
def cwAll : String → Bool := fun _ => true

/-- A freshly constructed user, for concrete instantiations. -/
def blankUser : MatrixUser := newMatrixUser cwAll "@user:example.com"

/-- A user mid-handshake: phone number and code hash set. -/
def handshakeUser : MatrixUser :=
  { blankUser with phoneNumber := some "+15551234", phoneCodeHash := some "abcdef" }

/-- A remote signIn that always fails with a protocol error. -/
def signInFail : String → String → String → Except JSThrown Nat :=
  fun _ _ _ => Except.error (newError "PHONE_CODE_INVALID")

/-- A remote signIn that always succeeds. -/
def signInOk : String → String → String → Except JSThrown Nat :=
  fun _ _ _ => Except.ok 0

/-- A user whose puppet is live and authenticated. -/
def loggedInUser : MatrixUser :=
  { blankUser with _telegramPuppet := some { userID := some 42, subentry := { raw := "p" } } }

/-- A user mid-handshake whose puppet snapshot is present. -/
def sessionUser : MatrixUser :=
  { handshakeUser with puppetData := some { raw := "sess" } }

/-- A phone-check that always reports a registered, valid number. -/
def cpOK : String → String := fun _ => "ok"

/-- A thrown remote-protocol object: not an Error instance, with a
toPrintable capability. -/
def plainErr : JSThrown :=
  { isError := false, message := ""
    toPrintable := some "PHONE_NUMBER_INVALID: the phone number is invalid"
    toString := "[object Object]" }

/-- A similarity metric for concrete instantiations: 1 on equal strings. -/
def simExact : String → String → ℚ := fun q s => if q == s then 1 else 0

/-- getFirstAndLastName for concrete instantiations. -/
def getNameBlank : Contact → String :=
  fun c => (c.firstName.getD "") ++ " " ++ (c.lastName.getD "")

/-- A contact known only by username. -/
def alice : Contact :=
  { id := 1, firstName := none, lastName := none, username := some "alice", phoneNumber := none }

/-- The search result the "alice" query produces. -/
def aliceResult : SearchResult := { similarity := 1, matchPercent := 100, contact := alice }

/-- Claim C1: when the remote contact fetch reports contacts.contactsNotModified,
syncContacts returns false, leaves the local contacts sequence unchanged and
does not save; in every other case it replaces the contacts cache wholesale
with the freshly resolved remote set in response order, saves, and returns
true. -/
theorem syncContacts_notModified_or_replace
    (fromSubentry : Option PuppetData → TelegramPuppet) (resolve : RemoteUser → Contact)
    (u : MatrixUser) :
    ((syncContacts fromSubentry resolve ContactsResult.contactsNotModified u).result = false
      ∧ (syncContacts fromSubentry resolve ContactsResult.contactsNotModified u).user.contacts
          = u.contacts
      ∧ (syncContacts fromSubentry resolve ContactsResult.contactsNotModified u).saved = false)
    ∧ ∀ users : List RemoteUser,
      (syncContacts fromSubentry resolve (ContactsResult.modified users) u).result = true
      ∧ (syncContacts fromSubentry resolve (ContactsResult.modified users) u).user.contacts
          = users.map resolve
      ∧ (syncContacts fromSubentry resolve (ContactsResult.modified users) u).saved = true := by
  unfold syncContacts telegramPuppet
  cases h : u._telegramPuppet <;> simp

/-- Claim C5: requestCode on a user whose remote session is live and reports an
authenticated identity throws the already-logged-in error, issues no remote
call, performs no state mutation and does not save. -/
theorem sendTelegramCode_alreadyAuthenticated
    (fromSubentry : Option PuppetData → TelegramPuppet) (checkPhone : String → String)
    (sendCode : String → Except JSThrown SentCode) (phoneNumber : String)
    (u : MatrixUser) (hauth : isLoggedIn u = true) :
    sendTelegramCode fromSubentry checkPhone sendCode phoneNumber u
      = { result := Except.error
            (newError "You are already logged in. Please log out before logging in again.")
          user := u, calls := [], saved := false } := by
  unfold sendTelegramCode
  rw [hauth]
  simp

/-- Witness for C5 at a concrete authenticated user. -/
theorem sendTelegramCode_alreadyAuthenticated_witness :
    sendTelegramCode fsBlank cpOK (fun _ => Except.error plainErr) "+15551234" loggedInUser
      = { result := Except.error
            (newError "You are already logged in. Please log out before logging in again.")
          user := loggedInUser, calls := [], saved := false } :=
  sendTelegramCode_alreadyAuthenticated fsBlank cpOK (fun _ => Except.error plainErr)
    "+15551234" loggedInUser rfl

/-- Claim C7 counterexample: logOut does not clear the handshake fields; on a
user holding a phone number and code hash, both survive logOutFromTelegram. -/
theorem logOut_keeps_handshake_fields :
    ¬(((logOutFromTelegram fsBlank sessionUser).user.phoneNumber = none)
      ∧ ((logOutFromTelegram fsBlank sessionUser).user.phoneCodeHash = none)) := by
  intro h
  have hpn : (logOutFromTelegram fsBlank sessionUser).user.phoneNumber = some "+15551234" := rfl
  rw [hpn] at h
  exact Option.noConfusion h.1

/-- Claim C7 (amended): logOutFromTelegram discards the cached session object
and its persisted snapshot, saves, and returns true, leaving userID, the
whitelist flag, command status, contacts and both handshake fields
(phoneNumber, phoneCodeHash) unchanged — the handshake fields are NOT
cleared. -/
theorem logOut_discards_session_preserves_rest
    (fromSubentry : Option PuppetData → TelegramPuppet) (u : MatrixUser) :
    (logOutFromTelegram fromSubentry u).user._telegramPuppet = none
    ∧ (logOutFromTelegram fromSubentry u).user.puppetData = none
    ∧ (logOutFromTelegram fromSubentry u).saved = true
    ∧ (logOutFromTelegram fromSubentry u).result = true
    ∧ (logOutFromTelegram fromSubentry u).user.userID = u.userID
    ∧ (logOutFromTelegram fromSubentry u).user.whitelisted = u.whitelisted
    ∧ (logOutFromTelegram fromSubentry u).user.commandStatus = u.commandStatus
    ∧ (logOutFromTelegram fromSubentry u).user.contacts = u.contacts
    ∧ (logOutFromTelegram fromSubentry u).user.phoneNumber = u.phoneNumber
    ∧ (logOutFromTelegram fromSubentry u).user.phoneCodeHash = u.phoneCodeHash := by
  unfold logOutFromTelegram telegramPuppet
  cases h : u._telegramPuppet <;> simp

/-- Claim C9 (code behavior at the failing input): the contactIDs setter does
not resolve the id list synchronously — immediately after it returns, the
contacts field still holds its pre-assignment value, and the resolution lives
in a detached scheduled task whose later run is what installs the resolved
contacts. -/
theorem contactIDs_setter_fire_and_forget :
    (setContactIDs getUserBlank (some [1]) blankUser).user.contacts = []
    ∧ ∃ f, (setContactIDs getUserBlank (some [1]) blankUser).pendingTask = some f
        ∧ (f (setContactIDs getUserBlank (some [1]) blankUser).user).contacts
            = [getUserBlank 1] := by
  exact ⟨rfl, _, rfl, rfl⟩

/-- Helper: the changed flag returned by the syncDialogs loop does not depend
on the room-creation outcome. -/
theorem syncDialogsLoop_changed_indep (updateInfo : Dialog → Bool)
    (rc₁ rc₂ : Dialog → Except String Unit) (cr : Bool) (ds : List Dialog) (changed : Bool) :
    (syncDialogsLoop updateInfo rc₁ cr ds changed).changed
      = (syncDialogsLoop updateInfo rc₂ cr ds changed).changed := by
  induction ds generalizing changed with
  | nil => rfl
  | cons d rest ih =>
    cases h : isSkipped d <;> simp [syncDialogsLoop, h, ih]

/-- Helper: the peers processed by the syncDialogs loop do not depend on the
room-creation outcome. -/
theorem syncDialogsLoop_peers_indep (updateInfo : Dialog → Bool)
    (rc₁ rc₂ : Dialog → Except String Unit) (cr : Bool) (ds : List Dialog) (changed : Bool) :
    (syncDialogsLoop updateInfo rc₁ cr ds changed).peersProcessed
      = (syncDialogsLoop updateInfo rc₂ cr ds changed).peersProcessed := by
  induction ds generalizing changed with
  | nil => rfl
  | cons d rest ih =>
    cases h : isSkipped d <;> simp [syncDialogsLoop, h, ih]

/-- Helper: with room creation enabled, the errors logged by the syncDialogs
loop are exactly the room-creation failures of the non-skipped dialogs. -/
theorem syncDialogsLoop_errors (updateInfo : Dialog → Bool)
    (rc : Dialog → Except String Unit) (ds : List Dialog) (changed : Bool) :
    (syncDialogsLoop updateInfo rc true ds changed).errorsLogged
      = (ds.filter fun d => !isSkipped d).filterMap fun d =>
          match rc d with
          | Except.ok _ => none
          | Except.error e => some e := by
  induction ds generalizing changed with
  | nil => rfl
  | cons d rest ih =>
    cases h : isSkipped d
    · cases hrc : rc d <;> simp [syncDialogsLoop, h, hrc, ih]
    · simp [syncDialogsLoop, h, ih]

/-- Helper: the syncDialogs loop ignores skipped dialogs entirely. -/
theorem syncDialogsLoop_filter (updateInfo : Dialog → Bool)
    (rc : Dialog → Except String Unit) (cr : Bool) (ds : List Dialog) (changed : Bool) :
    syncDialogsLoop updateInfo rc cr ds changed
      = syncDialogsLoop updateInfo rc cr (ds.filter fun d => !isSkipped d) changed := by
  induction ds generalizing changed with
  | nil => rfl
  | cons d rest ih =>
    cases h : isSkipped d <;> simp [syncDialogsLoop, h, ih]

/-- Claim C2: with room creation enabled, a createMatrixRoom failure is caught
and logged, every subsequent conversation is still processed, and the changed
flag returned by syncDialogs is exactly the one an always-succeeding room
creation would have produced.  The comparison against `fun _ => Except.ok ()`
states both the batch-continuation and the flag-independence; the errorsLogged
equation states that each failure is logged in place. -/
theorem syncDialogs_roomFailure_isolated (updateInfo : Dialog → Bool)
    (createMatrixRoom : Dialog → Except String Unit) (dialogs : List Dialog) :
    (syncDialogs updateInfo createMatrixRoom true dialogs).changed
        = (syncDialogs updateInfo (fun _ => Except.ok ()) true dialogs).changed
    ∧ (syncDialogs updateInfo createMatrixRoom true dialogs).peersProcessed
        = (syncDialogs updateInfo (fun _ => Except.ok ()) true dialogs).peersProcessed
    ∧ (syncDialogs updateInfo createMatrixRoom true dialogs).errorsLogged
        = (dialogs.filter fun d => !isSkipped d).filterMap fun d =>
            match createMatrixRoom d with
            | Except.ok _ => none
            | Except.error e => some e := by
  refine ⟨?_, ?_, ?_⟩
  · exact syncDialogsLoop_changed_indep updateInfo createMatrixRoom _ true dialogs false
  · exact syncDialogsLoop_peers_indep updateInfo createMatrixRoom _ true dialogs false
  · exact syncDialogsLoop_errors updateInfo createMatrixRoom dialogs false

/-- Claim C6: syncDialogs treats a dialog list exactly like the same list with
every forbidden or deactivated dialog removed: such conversations produce no
portal lookup, no room-creation attempt, no logged error, and no contribution
to the returned changed flag. -/
theorem syncDialogs_skips_forbidden (updateInfo : Dialog → Bool)
    (createMatrixRoom : Dialog → Except String Unit) (createRooms : Bool)
    (dialogs : List Dialog) :
    syncDialogs updateInfo createMatrixRoom createRooms dialogs
      = syncDialogs updateInfo createMatrixRoom createRooms
          (dialogs.filter fun d => !isSkipped d) :=
  syncDialogsLoop_filter updateInfo createMatrixRoom createRooms dialogs false

/-- Claim C4 counterexample: when the delegated remote sign-in call fails, the
handshake hash is NOT cleared and no save happens — refuting "clears the hash
and persists on any outcome". -/
theorem signIn_failure_keeps_hash :
    ¬(((signInToTelegram signInFail "12345" handshakeUser).user.phoneCodeHash = none)
      ∧ ((signInToTelegram signInFail "12345" handshakeUser).saved = true)) := by
  intro h
  have hh : (signInToTelegram signInFail "12345" handshakeUser).user.phoneCodeHash
      = some "abcdef" := rfl
  rw [hh] at h
  exact Option.noConfusion h.1

/-- Claim C4 (amended): with phoneNumber and phoneCodeHash set (truthy),
submitCode clears the handshake hash and persists the user only when the
delegated remote sign-in call returns normally; when that call throws, the
error propagates with the hash still set and no persistence call. -/
theorem signIn_clears_hash_only_on_success {α : Type}
    (signIn : String → String → String → Except JSThrown α) (phoneCode : String)
    (u : MatrixUser) (pn h : String)
    (hpn : u.phoneNumber = some pn) (hpn' : pn ≠ "")
    (hh : u.phoneCodeHash = some h) (hh' : h ≠ "") :
    (∀ v, signIn pn h phoneCode = Except.ok v →
        signInToTelegram signIn phoneCode u
          = { result := Except.ok v, user := { u with phoneCodeHash := none }, saved := true })
    ∧ (∀ e, signIn pn h phoneCode = Except.error e →
        signInToTelegram signIn phoneCode u
          = { result := Except.error e, user := u, saved := false }) := by
  have hpnE : pn.isEmpty = false := by
    cases hE : pn.isEmpty
    · rfl
    · exact absurd ((String.isEmpty_iff pn).mp hE) hpn'
  have hhE : h.isEmpty = false := by
    cases hE : h.isEmpty
    · rfl
    · exact absurd ((String.isEmpty_iff h).mp hE) hh'
  unfold signInToTelegram
  rw [hpn, hh]
  simp only [jsTruthyStr, Option.getD_some, hpnE, hhE, Bool.not_false, Bool.not_true,
    if_false, Bool.false_eq_true, if_neg]
  constructor
  · intro v hv
    rw [hv]
  · intro e he
    rw [he]

/-- Witness for C4's amended theorem at a concrete mid-handshake user. -/
theorem signIn_clears_hash_only_on_success_witness :
    signInToTelegram signInOk "12345" handshakeUser
      = { result := Except.ok 0, user := { handshakeUser with phoneCodeHash := none },
          saved := true } :=
  (signIn_clears_hash_only_on_success signInOk "12345" handshakeUser "+15551234" "abcdef"
    rfl (by decide) rfl (by decide)).1 0 rfl
/-- Claim C8: every value thrown by parseTelegramError is an Error instance —
a non-Error remote failure is wrapped into one carrying its printable
rendering — and a failure of the remote send-code step surfaces to the caller
of sendTelegramCode exactly as that normalized value. -/
theorem parseTelegramError_normalizes :
    (∀ err : JSThrown, (parseTelegramError err).isError = true)
    ∧ (∀ err : JSThrown, err.isError = false →
        (parseTelegramError err).message
          = match err.toPrintable with
            | some p => p
            | none => err.toString)
    ∧ ∀ (fromSubentry : Option PuppetData → TelegramPuppet) (checkPhone : String → String)
        (err : JSThrown) (phoneNumber : String) (u : MatrixUser),
        isLoggedIn u = false →
        checkPhone phoneNumber ≠ "unregistered" →
        checkPhone phoneNumber ≠ "invalid" →
        (sendTelegramCode fromSubentry checkPhone (fun _ => Except.error err)
            phoneNumber u).result
          = Except.error (parseTelegramError err) := by
  refine ⟨?_, ?_, ?_⟩
  · intro err
    unfold parseTelegramError newError
    cases h : err.isError <;> simp [h]
  · intro err h
    unfold parseTelegramError newError
    cases hp : err.toPrintable <;> simp [h, hp]
  · intro fromSubentry checkPhone err phoneNumber u hLogged hUnreg hInv
    unfold sendTelegramCode
    rw [hLogged]
    have h1 : (checkPhone phoneNumber == "unregistered") = false := by
      simp [hUnreg]
    have h2 : (checkPhone phoneNumber == "invalid") = false := by
      simp [hInv]
    simp [h1, h2]

/-- Witness for C8 at a concrete plain (non-Error) remote failure. -/
theorem parseTelegramError_normalizes_witness :
    (parseTelegramError plainErr).isError = true
    ∧ (parseTelegramError plainErr).message
        = "PHONE_NUMBER_INVALID: the phone number is invalid"
    ∧ (sendTelegramCode fsBlank cpOK (fun _ => Except.error plainErr)
          "+15551234" blankUser).result = Except.error (parseTelegramError plainErr) :=
  ⟨parseTelegramError_normalizes.1 plainErr,
   parseTelegramError_normalizes.2.1 plainErr rfl,
   parseTelegramError_normalizes.2.2 fsBlank cpOK plainErr "+15551234" blankUser rfl
     (by decide) (by decide)⟩
/-- Claim C10: rehydration round-trips the persistent scalar fields — fromEntry
applied to toEntry's output accepts the entry (its type is "matrix") and
yields a user with the same userID, phoneNumber and phoneCodeHash — and
fromEntry rejects an entry exactly when its type differs from "matrix". -/
theorem fromEntry_toEntry_roundtrip
    (checkWhitelist : String → Bool) (getTelegramUser : Nat → Contact)
    (fromSubentry : Option PuppetData → TelegramPuppet) (u : MatrixUser) (entry : Entry) :
    ((fromEntry checkWhitelist getTelegramUser fromSubentry (toEntry u).1).toOption.map
        fun o => (o.user.userID, o.user.phoneNumber, o.user.phoneCodeHash))
      = some (u.userID, u.phoneNumber, u.phoneCodeHash)
    ∧ (fromEntry checkWhitelist getTelegramUser fromSubentry entry).isOk
        = (entry.type == "matrix") := by
  constructor
  · unfold fromEntry toEntry newMatrixUser setContactIDs telegramPuppet
    cases hp : u._telegramPuppet <;> cases hd : u.puppetData <;> simp [hd, Except.toOption]
  · unfold fromEntry
    by_cases h : entry.type = "matrix" <;> simp [h, Except.isOk, Except.toBool]

/-- Claim C3: searchContacts returns at most `maxResults` entries, sorted by
similarity descending, every returned entry has similarity at least
`minSimilarity`, carries the raw per-contact similarity (the maximum of the
name, username and phone-number scores), and its match percentage is
similarity*100 rounded to the nearest 0.1. -/
theorem searchContacts_ranked (sim : String → String → ℚ) (getName : Contact → String)
    (query : String) (maxResults : Nat) (minSimilarity : ℚ) (contacts : List Contact) :
    (searchContacts sim getName query maxResults minSimilarity contacts).length ≤ maxResults
    ∧ List.Sorted simGE (searchContacts sim getName query maxResults minSimilarity contacts)
    ∧ ∀ r ∈ searchContacts sim getName query maxResults minSimilarity contacts,
        minSimilarity ≤ r.similarity
        ∧ r.similarity = contactSimilarity sim getName query r.contact
        ∧ r.matchPercent = roundToTenth (r.similarity * 100) := by
  refine ⟨List.length_take_le _ _, ?_, ?_⟩
  · exact List.Pairwise.sublist (List.take_sublist _ _)
      (List.sorted_insertionSort simGE _)
  · intro r hr
    have h₁ : r ∈ (searchResults sim getName query minSimilarity contacts).insertionSort simGE :=
      List.mem_of_mem_take hr
    have h₂ : r ∈ searchResults sim getName query minSimilarity contacts :=
      (List.perm_insertionSort simGE _).mem_iff.mp h₁
    obtain ⟨c, hc, hfc⟩ := List.mem_filterMap.mp h₂
    dsimp only at hfc
    by_cases hmin : minSimilarity ≤ contactSimilarity sim getName query c
    · rw [if_pos hmin] at hfc
      injection hfc with hfc
      subst hfc
      refine ⟨hmin, rfl, ?_⟩
      show (jsRound (contactSimilarity sim getName query c * 1000) : ℚ) / 10
          = roundToTenth (contactSimilarity sim getName query c * 100)
      rw [roundToTenth, mul_assoc]
      norm_num
    · rw [if_neg hmin] at hfc
      exact Option.noConfusion hfc

/-- Helper: the concrete "alice" query of the spec's worked example evaluates
to a single full-score result. -/
theorem searchContacts_alice :
    searchContacts simExact getNameBlank "alice" 5 (9/20) [alice] = [aliceResult] := by
  have hA : "alice".isEmpty = false := by decide
  norm_num [hA, searchContacts, searchResults, contactSimilarity, simExact, getNameBlank, alice,
    jsTruthyStr, jsRound, aliceResult, List.insertionSort, List.filterMap]

/-- Witness for C3 at the spec's worked example (query "alice", threshold
0.45): the returned entry reaches the threshold, carries its raw similarity
and the rounded percentage. -/
theorem searchContacts_ranked_witness :
    (9:ℚ)/20 ≤ aliceResult.similarity
    ∧ aliceResult.similarity = contactSimilarity simExact getNameBlank "alice" aliceResult.contact
    ∧ aliceResult.matchPercent = roundToTenth (aliceResult.similarity * 100) :=
  (searchContacts_ranked simExact getNameBlank "alice" 5 ((9:ℚ)/20) [alice]).2.2 aliceResult
    (searchContacts_alice ▸ List.mem_singleton_self aliceResult)
